import Mathlib

/-!
Shallow embedding of apps/data_handler/handlers/events/zklend/transform_events.py
(the zkLend event transformation and dispatch pipeline) and proofs of the
specification claims about it.

Python semantics modelled explicitly: dict lookup (`get` returns an optional
value, `[]` raises KeyError on a missing key), the polymorphic membership test
`"error" in response` (key containment for a dict, element containment for a
list), iteration over a dict (yields its keys, which are strings), and
arbitrary-precision integers (`Int`).
-/

namespace ZklendSpec

/-- A JSON-like scalar value appearing in event payload mappings.  Python
integers are arbitrary precision, so numeric fields are `Int`. -/
inductive Value where
  | vStr : String → Value
  | vInt : Int → Value
  deriving Repr, DecidableEq

/-- A Python mapping from string keys to values (association list; the first
binding of a key is its value, as in a dict). -/
abbrev Payload := List (String × Value)

/-- Python `d.get(k)`: the value at key `k`, or none when the key is absent. -/
def pget (p : Payload) (k : String) : Option Value :=
  (p.find? (fun kv => kv.fst == k)).map (fun kv => kv.snd)

/-- Extract a string field from a payload mapping. -/
def getStr (p : Payload) (k : String) : Option String :=
  match pget p k with
  | some (.vStr s) => some s
  | _ => none

/-- Extract an integer field from a payload mapping (exact precision). -/
def getInt (p : Payload) (k : String) : Option Int :=
  match pget p k with
  | some (.vInt n) => some n
  | _ => none

/-- One raw event item of a fetched batch: a mapping whose type identifier is
read with `event.get("key_name")` (modelled as an `Option String`, none when
the key is absent) and whose payload is `event["data"]`. -/
structure RawEvent where
  key_name : Option String
  data : Payload
  deriving Repr, DecidableEq

/-- An element of a list-shaped fetch response: either an event mapping or a
bare string (a Python list is heterogeneous; the membership test
`"error" in response` compares against every element). -/
inductive Item where
  | ev : RawEvent → Item
  | lit : String → Item
  deriving Repr, DecidableEq

/-- The fetch response returned by `DeRiskAPIConnector.get_data`: either a
JSON object (a Python dict) or a sequence of items (a Python list). -/
inductive Response where
  | obj : Payload → Response
  | arr : List Item → Response
  deriving Repr, DecidableEq

/-- Python `"error" in response`: key containment when the response is a
dict, element containment when it is a list (transform_events.py line 56). -/
def containsError : Response → Bool
  | .obj m => (pget m "error").isSome
  | .arr items => items.any (fun it =>
      match it with
      | .lit s => s == "error"
      | .ev _ => false)

/-- Modelled from the spec: the serializer `AccumulatorsSyncEventData`
(module `data_handler.handler_tools.data_parser.serializers`, absent from the
sources).  Per spec §3/§4.2 it is a typed intermediate record with validated
fields; accumulator amounts keep the exact precision of the upstream
representation. -/
structure AccumulatorsSyncEventData where
  token : String
  lending_accumulator : Int
  debt_accumulator : Int
  deriving Repr, DecidableEq

/-- Modelled from the spec: the serializer `LiquidationEventData` (absent
from the sources); validated typed fields of a liquidation event, amounts
with exact precision. -/
structure LiquidationEventData where
  liquidator : String
  user : String
  debt_token : String
  debt_amount : Int
  collateral_token : String
  collateral_amount : Int
  deriving Repr, DecidableEq

/-- The type-specific parser outputs, as one sum (spec §3 ParsedEventData). -/
inductive ParsedEventData where
  | accumulatorsSync : AccumulatorsSyncEventData → ParsedEventData
  | liquidation : LiquidationEventData → ParsedEventData
  deriving Repr, DecidableEq

/-- Modelled from the spec: the ValidationError raised by a parser (spec
§4.2).  A parser receives only the payload (`event["data"]` in the batch
loop), so its error can record that raw input and nothing else. -/
structure ValidationErr where
  rawInput : Payload
  deriving Repr, DecidableEq

/-- Modelled from the spec: `ZkLendDataParser.parse_accumulators_sync_event`
(absent from the sources).  Per spec §4.2 it is pure, fails with a
ValidationError when a required field is absent or of the wrong shape, and
parses numeric fields with exact precision. -/
def parse_accumulators_sync_event (p : Payload) :
    Except ValidationErr AccumulatorsSyncEventData :=
  match getStr p "token", getInt p "lending_accumulator",
      getInt p "debt_accumulator" with
  | some t, some la, some da => .ok ⟨t, la, da⟩
  | _, _, _ => .error ⟨p⟩

/-- Modelled from the spec: `ZkLendDataParser.parse_liquidation_event`
(absent from the sources), same contract as the accumulators-sync parser. -/
def parse_liquidation_event (p : Payload) :
    Except ValidationErr LiquidationEventData :=
  match getStr p "liquidator", getStr p "user", getStr p "debt_token",
      getInt p "debt_amount", getStr p "collateral_token",
      getInt p "collateral_amount" with
  | some l, some u, some dt, some da, some ct, some ca =>
      .ok ⟨l, u, dt, da, ct, ca⟩
  | _, _, _, _, _, _ => .error ⟨p⟩

/-- Modelled from the spec: the database model `AccumulatorsSyncEventData`
of `data_handler.db.models.zklend_events` (absent from the sources); the
storage-ready CanonicalRecord, same fields as the serializer (spec §3). -/
structure AccumulatorsSyncModel where
  token : String
  lending_accumulator : Int
  debt_accumulator : Int
  deriving Repr, DecidableEq

/-- Modelled from the spec: the database model `LiquidationEventData` of
`data_handler.db.models.zklend_events` (absent from the sources). -/
structure LiquidationModel where
  liquidator : String
  user : String
  debt_token : String
  debt_amount : Int
  collateral_token : String
  collateral_amount : Int
  deriving Repr, DecidableEq

/-- A canonical record handed to the persistence collaborator. -/
inductive DbRecord where
  | acc : AccumulatorsSyncModel → DbRecord
  | liq : LiquidationModel → DbRecord
  deriving Repr, DecidableEq

/-- One call received by the persistence collaborator: the name of the
invoked operation and the record passed to it. -/
structure DbCall where
  method_name : String
  record : DbRecord
  deriving Repr, DecidableEq

/-- `AccumulatorsSyncModel(**parsed.model_dump())` (line 65): the model
constructor receives exactly the parser output fields, field for field.
Applying it to a parsed value of the other variant would be a Python
TypeError (unexpected keyword arguments), modelled as none. -/
def accumulatorsSyncModelClass : ParsedEventData → Option DbRecord
  | .accumulatorsSync d =>
      some (.acc ⟨d.token, d.lending_accumulator, d.debt_accumulator⟩)
  | _ => none

/-- `LiquidationModel(**parsed.model_dump())`, same convention. -/
def liquidationModelClass : ParsedEventData → Option DbRecord
  | .liquidation d =>
      some (.liq ⟨d.liquidator, d.user, d.debt_token, d.debt_amount,
        d.collateral_token, d.collateral_amount⟩)
  | _ => none

/-- One row of EVENT_MAPPING: the `(parser_func, method_name, model_class)`
tuple of transform_events.py lines 21-32. -/
structure RegistryEntry where
  parser_func : Payload → Except ValidationErr ParsedEventData
  method_name : String
  model_class : ParsedEventData → Option DbRecord

/-- The AccumulatorsSync row of EVENT_MAPPING (lines 22-26):
`(ZkLendDataParser.parse_accumulators_sync_event, "create_accumulator_event",
AccumulatorsSyncModel)`. -/
def accumulatorsSyncEntry : RegistryEntry :=
  ⟨fun p => (parse_accumulators_sync_event p).map ParsedEventData.accumulatorsSync,
    "create_accumulator_event", accumulatorsSyncModelClass⟩

/-- The Liquidation row of EVENT_MAPPING (lines 27-31):
`(ZkLendDataParser.parse_liquidation_event, "create_liquidation_event",
LiquidationModel)`. -/
def liquidationEntry : RegistryEntry :=
  ⟨fun p => (parse_liquidation_event p).map ParsedEventData.liquidation,
    "create_liquidation_event", liquidationModelClass⟩

/-- EVENT_MAPPING of transform_events.py lines 21-32: the static registry
from event type identifier to (parser, persistence operation name, model
class). -/
def EVENT_MAPPING : List (String × RegistryEntry) :=
  [ ("zklend::market::Market::AccumulatorsSync", accumulatorsSyncEntry),
    ("zklend::market::Market::Liquidation", liquidationEntry) ]

/-- `event_type in self.EVENT_MAPPING` followed by
`self.EVENT_MAPPING[event_type]` (lines 62-63), as one lookup.  The Python
membership test compares the (possibly None) result of
`event.get("key_name")` against the string keys of the dict, so a missing
key never matches. -/
def lookupMapping (mp : List (String × RegistryEntry)) (t : Option String) :
    Option RegistryEntry :=
  match t with
  | none => none
  | some s => ((mp.find? (fun kv => kv.fst == s)).map (fun kv => kv.snd))

/-- The exceptions the pipeline can raise, as structured values:
fetchError is the ValueError of line 57 carrying the upstream detail
`response["error"]`; typeError models a Python TypeError (indexing a list
with a string, or a constructor given wrong keyword arguments);
attributeError models calling `.get` on a string; keyError models indexing
a dict at a missing key; unsupportedEvent is the ValueError of line 68
naming the (possibly None) event type; validationError is a parser failure
propagated unchanged. -/
inductive TError where
  | fetchError : Value → TError
  | typeError : TError
  | attributeError : TError
  | keyError : TError
  | unsupportedEvent : Option String → TError
  | validationError : ValidationErr → TError
  deriving Repr, DecidableEq

/-- Is this error the fetch-error (the ValueError of line 57 carrying the
upstream error detail)? -/
def TError.isFetchErr : TError → Bool
  | .fetchError _ => true
  | _ => false

/-- One iteration of the dispatch loop, lines 61-68: read the type
identifier, look it up, run the parser on `event["data"]`, build the model,
and produce the persistence call.  Modelled from the spec for the
collaborator invocation: `ZkLendEventDBConnector` is absent from the
sources; per spec §6 it exposes one named operation per event type, and the
name-indexed invocation `self.db_connector[method_name](db_model)` (line 66)
is modelled as invoking the operation of that name, recorded as a DbCall. -/
def dispatch_event (mp : List (String × RegistryEntry)) (e : RawEvent) :
    Except TError DbCall :=
  match lookupMapping mp e.key_name with
  | some entry =>
      match entry.parser_func e.data with
      | .error ve => .error (.validationError ve)
      | .ok parsed =>
          match entry.model_class parsed with
          | none => .error .typeError
          | some r => .ok ⟨entry.method_name, r⟩
  | none => .error (.unsupportedEvent e.key_name)

/-- The batch loop `for event in response:` (lines 60-68) over a list
response.  Returns the persistence calls made, in order, and the first
exception raised (if any): calls made before the failing event have already
happened and are kept; nothing at or after the failing event runs.  A bare
string element raises an AttributeError at `event.get` (a string has no
`get`). -/
def processEvents (mp : List (String × RegistryEntry)) :
    List Item → List DbCall × Option TError
  | [] => ([], none)
  | .lit _ :: _ => ([], some .attributeError)
  | .ev e :: rest =>
      match dispatch_event mp e with
      | .error err => ([], some err)
      | .ok c =>
          match processEvents mp rest with
          | (cs, r) => (c :: cs, r)

/-- Evaluation of `response["error"]` inside the raise of line 57, at the
moment the error branch is taken: for a dict the value at key error (a
KeyError if absent, unreachable on the branch); for a list, indexing with a
string is a TypeError, raised while formatting the message. -/
def fetchRaise : Response → TError
  | .obj m =>
      match pget m "error" with
      | some v => .fetchError v
      | none => .keyError
  | .arr _ => .typeError

/-- The body of `fetch_and_transform_events` after the fetch (lines 56-68),
as a function of the fetched response: the error check of line 56, then the
dispatch loop.  Iterating a dict response yields its keys, which are
strings, so a nonempty dict without an error key raises an AttributeError
at `event.get`; an empty dict completes with no calls. -/
def runTransform (resp : Response) : List DbCall × Option TError :=
  if containsError resp then ([], some (fetchRaise resp))
  else
    match resp with
    | .obj m => if m.isEmpty then ([], none) else ([], some .attributeError)
    | .arr items => processEvents EVENT_MAPPING items

/-- The ZklendTransformer instance state: the references installed by
`__init__` (lines 41-43).  The API connector is its `get_data` behaviour, a
function from the call arguments to the response; the DB connector
reference is opaque.  EVENT_MAPPING is a class attribute aliasing the
module constant, not instance state, so it is the module-level
`EVENT_MAPPING` above. -/
structure ZklendTransformer where
  api_get_data : String → Int → Int → Response
  db_connector_ref : Nat

/-- `fetch_and_transform_events` (lines 45-68): fetch via the API connector,
then the error check and dispatch loop.  The method body contains no
assignment to `self`, so the instance state is returned unchanged. -/
def ZklendTransformer.fetch_and_transform_events (self : ZklendTransformer)
    (from_address : String) (min_block max_block : Int) :
    (List DbCall × Option TError) × ZklendTransformer :=
  (runTransform (self.api_get_data from_address min_block max_block), self)

/-- `save_liquidation_event` (lines 79-87): direct dict indexing of
EVENT_MAPPING at the Liquidation key (a KeyError if absent), the parser
applied to the whole argument, the model built from the parse, and a direct
call to `create_liquidation_event` (the tuple's method name is discarded,
line 83 binds it to an underscore). -/
def ZklendTransformer.save_liquidation_event (_self : ZklendTransformer)
    (event : Payload) : List DbCall × Option TError :=
  match lookupMapping EVENT_MAPPING (some "zklend::market::Market::Liquidation") with
  | none => ([], some .keyError)
  | some entry =>
      match entry.parser_func event with
      | .error ve => ([], some (.validationError ve))
      | .ok parsed =>
          match entry.model_class parsed with
          | none => ([], some .typeError)
          | some r => ([⟨"create_liquidation_event", r⟩], none)

/-- `save_accumulators_sync_event` (lines 70-77), same shape as the
liquidation path with the hardcoded `create_accumulator_event` call. -/
def ZklendTransformer.save_accumulators_sync_event (_self : ZklendTransformer)
    (event : Payload) : List DbCall × Option TError :=
  match lookupMapping EVENT_MAPPING (some "zklend::market::Market::AccumulatorsSync") with
  | none => ([], some .keyError)
  | some entry =>
      match entry.parser_func event with
      | .error ve => ([], some (.validationError ve))
      | .ok parsed =>
          match entry.model_class parsed with
          | none => ([], some .typeError)
          | some r => ([⟨"create_accumulator_event", r⟩], none)

/-- The calls a batch would produce when every item dispatches successfully:
per item, the call of its dispatch, all-or-nothing. -/
def okCalls (mp : List (String × RegistryEntry)) :
    List Item → Option (List DbCall)
  | [] => some []
  | .lit _ :: _ => none
  | .ev e :: rest =>
      match dispatch_event mp e with
      | .error _ => none
      | .ok c => (okCalls mp rest).map (fun cs => c :: cs)

/-- Is this response item an event mapping (as opposed to a bare string)? -/
def Item.isEv : Item → Bool
  | .ev _ => true
  | .lit _ => false

/- Concrete fixtures used by the witnesses and counterexamples. -/

/-- A well-formed AccumulatorsSync payload. -/
def goodAccPayload : Payload :=
  [("token", .vStr "ETH"), ("lending_accumulator", .vInt 1001),
   ("debt_accumulator", .vInt 2002)]

/-- A second well-formed AccumulatorsSync payload. -/
def goodAccPayload2 : Payload :=
  [("token", .vStr "USDC"), ("lending_accumulator", .vInt 31),
   ("debt_accumulator", .vInt 42)]

/-- A third well-formed AccumulatorsSync payload. -/
def goodAccPayload3 : Payload :=
  [("token", .vStr "DAI"), ("lending_accumulator", .vInt 5),
   ("debt_accumulator", .vInt 6)]

/-- A well-formed Liquidation payload. -/
def goodLiqPayload : Payload :=
  [("liquidator", .vStr "0xA"), ("user", .vStr "0xB"),
   ("debt_token", .vStr "USDC"), ("debt_amount", .vInt 500),
   ("collateral_token", .vStr "ETH"), ("collateral_amount", .vInt 7)]

/-- A valid AccumulatorsSync batch item. -/
def accEvent : Item :=
  .ev ⟨some "zklend::market::Market::AccumulatorsSync", goodAccPayload⟩

/-- A second valid AccumulatorsSync batch item. -/
def accEvent2 : Item :=
  .ev ⟨some "zklend::market::Market::AccumulatorsSync", goodAccPayload2⟩

/-- A third valid AccumulatorsSync batch item. -/
def accEvent3 : Item :=
  .ev ⟨some "zklend::market::Market::AccumulatorsSync", goodAccPayload3⟩

/-- A valid Liquidation batch item. -/
def liqEvent : Item :=
  .ev ⟨some "zklend::market::Market::Liquidation", goodLiqPayload⟩

/-- A batch item whose type identifier has no registry entry. -/
def unknownEvent : Item :=
  .ev ⟨some "zklend::market::Market::Deposit", []⟩

/-- The persistence call produced by `accEvent`. -/
def accCall : DbCall :=
  ⟨"create_accumulator_event", .acc ⟨"ETH", 1001, 2002⟩⟩

/-- The persistence call produced by `accEvent2`. -/
def accCall2 : DbCall :=
  ⟨"create_accumulator_event", .acc ⟨"USDC", 31, 42⟩⟩

/-- The persistence call produced by `accEvent3`. -/
def accCall3 : DbCall :=
  ⟨"create_accumulator_event", .acc ⟨"DAI", 5, 6⟩⟩

/-- The persistence call produced by `liqEvent`. -/
def liqCall : DbCall :=
  ⟨"create_liquidation_event", .liq ⟨"0xA", "0xB", "USDC", 500, "ETH", 7⟩⟩

/-- A transformer instance whose API connector always returns the given
response. -/
def constTransformer (resp : Response) : ZklendTransformer :=
  ⟨fun _ _ _ => resp, 0⟩

/- Helper lemmas about the batch loop. -/

/-- A batch on which `okCalls` succeeds consists of event items only. -/
lemma okCalls_all_ev (mp : List (String × RegistryEntry)) :
    ∀ (items : List Item) (cs : List DbCall),
      okCalls mp items = some cs → items.all Item.isEv = true := by
  intro items
  induction items with
  | nil => intro cs _; rfl
  | cons it tl ih =>
    intro cs h
    cases it with
    | lit s => simp [okCalls] at h
    | ev e =>
      simp only [okCalls] at h
      cases hd : dispatch_event mp e with
      | error err => rw [hd] at h; simp at h
      | ok c =>
        rw [hd] at h
        cases ho : okCalls mp tl with
        | none => rw [ho] at h; simp at h
        | some cs2 =>
          simp [List.all_cons, Item.isEv, ih cs2 ho]

/-- A batch of event items only never triggers the fetch-error check
(line 56): the membership test compares the string error against each
element, and an event mapping is not a string. -/
lemma containsError_of_all_ev :
    ∀ (items : List Item), items.all Item.isEv = true →
      containsError (.arr items) = false := by
  intro items h
  induction items with
  | nil => rfl
  | cons it tl ih =>
    cases it with
    | ev e =>
      simp only [List.all_cons, Bool.and_eq_true] at h
      have := ih h.2
      simpa [containsError, List.any_cons] using this
    | lit s => simp [List.all_cons, Item.isEv] at h

/-- When every item of a prefix dispatches successfully, the loop emits its
calls in order and continues with the remainder of the batch. -/
lemma processEvents_append (mp : List (String × RegistryEntry)) :
    ∀ (pre : List Item) (cs : List DbCall) (rest : List Item),
      okCalls mp pre = some cs →
      processEvents mp (pre ++ rest) =
        (cs ++ (processEvents mp rest).fst, (processEvents mp rest).snd) := by
  intro pre
  induction pre with
  | nil =>
    intro cs rest h
    simp [okCalls] at h
    subst h
    simp
  | cons it tl ih =>
    intro cs rest h
    cases it with
    | lit s => simp [okCalls] at h
    | ev e =>
      simp only [okCalls] at h
      cases hd : dispatch_event mp e with
      | error err => rw [hd] at h; simp at h
      | ok c =>
        rw [hd] at h
        cases ho : okCalls mp tl with
        | none => rw [ho] at h; simp at h
        | some cs2 =>
          rw [ho] at h
          simp only [Option.map_some] at h
          obtain rfl : c :: cs2 = cs := Option.some.inj h
          simp [List.cons_append, processEvents, hd, ih cs2 rest ho]

/-- A batch on which `okCalls` succeeds runs to completion, emitting exactly
its calls and raising nothing. -/
lemma processEvents_ok (mp : List (String × RegistryEntry))
    (items : List Item) (cs : List DbCall) (h : okCalls mp items = some cs) :
    processEvents mp items = (cs, none) := by
  have := processEvents_append mp items cs [] h
  simpa [processEvents] using this

/-- `okCalls` yields one call per batch item. -/
lemma okCalls_length (mp : List (String × RegistryEntry)) :
    ∀ (items : List Item) (cs : List DbCall),
      okCalls mp items = some cs → cs.length = items.length := by
  intro items
  induction items with
  | nil => intro cs h; simp [okCalls] at h; subst h; rfl
  | cons it tl ih =>
    intro cs h
    cases it with
    | lit s => simp [okCalls] at h
    | ev e =>
      simp only [okCalls] at h
      cases hd : dispatch_event mp e with
      | error err => rw [hd] at h; simp at h
      | ok c =>
        rw [hd] at h
        cases ho : okCalls mp tl with
        | none => rw [ho] at h; simp at h
        | some cs2 =>
          rw [ho] at h
          simp only [Option.map_some] at h
          obtain rfl : c :: cs2 = cs := Option.some.inj h
          simp [ih cs2 ho]

/-- Claim C1: for every fetch response object containing an error field,
fetch_and_transform_events raises the fetch error carrying the upstream
error detail and the persistence collaborator receives zero calls,
regardless of any other content in the response. -/
theorem C1_fetch_error_aborts (t : ZklendTransformer) (addr : String)
    (mn mx : Int) (m : Payload) (v : Value)
    (hresp : t.api_get_data addr mn mx = .obj m)
    (herr : pget m "error" = some v) :
    (t.fetch_and_transform_events addr mn mx).fst =
      ([], some (.fetchError v)) := by
  simp [ZklendTransformer.fetch_and_transform_events, hresp, runTransform,
    containsError, herr, fetchRaise]

/-- Witness for C1 at a response carrying the error timeout next to other
content. -/
theorem C1_fetch_error_aborts_witness :
    ((constTransformer
        (.obj [("error", .vStr "timeout"), ("other", .vInt 5)])).fetch_and_transform_events
        "0xabc" 0 100).fst = ([], some (.fetchError (.vStr "timeout"))) :=
  C1_fetch_error_aborts _ "0xabc" 0 100 _ (.vStr "timeout") rfl rfl

/-- Claim C2 counterexample: on the batch of one valid AccumulatorsSync
event followed by one unknown-type event, the unsupported-event error is
raised, yet the persistence collaborator has already received the call for
the event before the unknown one — so the claim that no persistence call is
made for events before the unknown one is false on the code (the loop of
lines 60-68 dispatches each event as it is reached). -/
theorem C2_unknown_type_counterexample :
    runTransform (.arr [accEvent, unknownEvent]) =
      ([accCall], some (.unsupportedEvent (some "zklend::market::Market::Deposit"))) ∧
    ([accCall] : List DbCall) ≠ [] := ⟨rfl, by decide⟩

/-- Claim C2 as amended: for every batch consisting of successfully
dispatching events followed by an event whose type has no registry entry,
fetch_and_transform raises the unsupported-event error naming that type, no
persistence call is made for the unknown event or for any event after it,
and the events before it have already been persisted, one call each. -/
theorem C2_unknown_type_fail_fast (pre : List Item) (e : RawEvent)
    (rest : List Item) (cs : List DbCall)
    (hpre : okCalls EVENT_MAPPING pre = some cs)
    (hunk : lookupMapping EVENT_MAPPING e.key_name = none)
    (hnoerr : containsError (.arr (pre ++ .ev e :: rest)) = false) :
    runTransform (.arr (pre ++ .ev e :: rest)) =
      (cs, some (.unsupportedEvent e.key_name)) := by
  have happ := processEvents_append EVENT_MAPPING pre cs (.ev e :: rest) hpre
  have hdisp : dispatch_event EVENT_MAPPING e =
      .error (.unsupportedEvent e.key_name) := by
    simp [dispatch_event, hunk]
  simp [runTransform, hnoerr, happ, processEvents, hdisp]

/-- Witness for the amended C2 at a batch of one valid event, one
unknown-type event and one trailing valid event. -/
theorem C2_unknown_type_fail_fast_witness :
    runTransform (.arr ([accEvent] ++
        Item.ev ⟨some "zklend::market::Market::Deposit", []⟩ :: [liqEvent])) =
      ([accCall], some (.unsupportedEvent (some "zklend::market::Market::Deposit"))) :=
  C2_unknown_type_fail_fast [accEvent]
    ⟨some "zklend::market::Market::Deposit", []⟩ [liqEvent] [accCall]
    (by rfl) (by rfl) (by rfl)

/-- Claim C3: for every batch in which every event dispatches successfully
(known type, successful parse, model built), fetch_and_transform makes
exactly one persistence call per event — the operation named in the event's
registry entry, applied to the record built from its parser output — in the
order received, and raises nothing. -/
theorem C3_one_call_per_event (items : List Item) (cs : List DbCall)
    (h : okCalls EVENT_MAPPING items = some cs) :
    runTransform (.arr items) = (cs, none) ∧ cs.length = items.length := by
  have hall := okCalls_all_ev EVENT_MAPPING items cs h
  have hnoerr := containsError_of_all_ev items hall
  have hproc := processEvents_ok EVENT_MAPPING items cs h
  exact ⟨by simp [runTransform, hnoerr, hproc],
    okCalls_length EVENT_MAPPING items cs h⟩

/-- Witness for C3: a batch of three valid AccumulatorsSync events followed
by one valid Liquidation event yields exactly three accumulator-create
calls followed by one liquidation-create call, in order. -/
theorem C3_one_call_per_event_witness :
    runTransform (.arr [accEvent, accEvent2, accEvent3, liqEvent]) =
      ([accCall, accCall2, accCall3, liqCall], none) ∧
    ([accCall, accCall2, accCall3, liqCall] : List DbCall).length =
      ([accEvent, accEvent2, accEvent3, liqEvent] : List Item).length :=
  C3_one_call_per_event [accEvent, accEvent2, accEvent3, liqEvent]
    [accCall, accCall2, accCall3, liqCall] (by rfl)

/-- Claim C4 counterexample: the very same error value is propagated for a
failing payload under the AccumulatorsSync type and under the Liquidation
type, so the propagated validation error does not carry (is not tagged
with) the offending event's type: lines 63-64 propagate the parser's error
bare, and the parser receives only the payload. -/
theorem C4_validation_untagged_counterexample :
    runTransform
        (.arr [.ev ⟨some "zklend::market::Market::AccumulatorsSync", []⟩]) =
      ([], some (.validationError ⟨[]⟩)) ∧
    runTransform
        (.arr [.ev ⟨some "zklend::market::Market::Liquidation", []⟩]) =
      ([], some (.validationError ⟨[]⟩)) := ⟨rfl, rfl⟩

/-- Claim C4 as amended: for every batch event whose type is known but
whose payload fails parsing, fetch_and_transform propagates the parser's
validation error unchanged — it carries the raw payload the parser
received, but is not tagged with the event's type — no later event in the
batch is processed, and the failure is not caught-and-continued. -/
theorem C4_validation_error_propagates (e : RawEvent) (rest : List Item)
    (entry : RegistryEntry)
    (hlk : lookupMapping EVENT_MAPPING e.key_name = some entry)
    (hp : entry.parser_func e.data = .error ⟨e.data⟩)
    (hnoerr : containsError (.arr (.ev e :: rest)) = false) :
    runTransform (.arr (.ev e :: rest)) =
      ([], some (.validationError ⟨e.data⟩)) := by
  simp [runTransform, hnoerr, processEvents, dispatch_event, hlk, hp]

/-- Witness for the amended C4 at an AccumulatorsSync event whose token
field has the wrong shape, with a trailing valid event left unprocessed. -/
theorem C4_validation_error_propagates_witness :
    runTransform (.arr (.ev ⟨some "zklend::market::Market::AccumulatorsSync",
        [("token", .vInt 3)]⟩ :: [liqEvent])) =
      ([], some (.validationError ⟨[("token", .vInt 3)]⟩)) :=
  C4_validation_error_propagates
    ⟨some "zklend::market::Market::AccumulatorsSync", [("token", .vInt 3)]⟩
    [liqEvent] accumulatorsSyncEntry (by rfl) (by rfl) (by rfl)

/-- Claim C5: for every well-formed raw Liquidation payload,
save_liquidation_event builds the same canonical record and issues the same
persistence call as fetch_and_transform does on the single-element batch
containing that payload under the Liquidation type. -/
theorem C5_save_single_equiv (t : ZklendTransformer) (p : Payload)
    (d : LiquidationEventData) (h : parse_liquidation_event p = .ok d) :
    t.save_liquidation_event p =
      runTransform
        (.arr [.ev ⟨some "zklend::market::Market::Liquidation", p⟩]) := by
  have hlk : lookupMapping EVENT_MAPPING
      (some "zklend::market::Market::Liquidation") = some liquidationEntry := by
    rfl
  simp [ZklendTransformer.save_liquidation_event, runTransform, containsError,
    processEvents, dispatch_event, hlk, liquidationEntry, h,
    liquidationModelClass, Except.map]

/-- Witness for C5 at a concrete well-formed Liquidation payload. -/
theorem C5_save_single_equiv_witness :
    (constTransformer (.arr [])).save_liquidation_event goodLiqPayload =
      runTransform
        (.arr [.ev ⟨some "zklend::market::Market::Liquidation",
          goodLiqPayload⟩]) :=
  C5_save_single_equiv (constTransformer (.arr [])) goodLiqPayload
    ⟨"0xA", "0xB", "USDC", 500, "ETH", 7⟩ (by rfl)

/-- Claim C6: for every well-formed AccumulatorsSync payload, parsing and
constructing its canonical record reproduces every source field exactly,
with no precision loss on the numeric accumulator fields (they are
arbitrary-precision integers throughout). -/
theorem C6_roundtrip (p : Payload) (tok : String) (la da : Int)
    (h1 : getStr p "token" = some tok)
    (h2 : getInt p "lending_accumulator" = some la)
    (h3 : getInt p "debt_accumulator" = some da) :
    parse_accumulators_sync_event p = .ok ⟨tok, la, da⟩ ∧
    accumulatorsSyncModelClass (.accumulatorsSync ⟨tok, la, da⟩) =
      some (.acc ⟨tok, la, da⟩) := by
  refine ⟨?_, rfl⟩
  simp only [parse_accumulators_sync_event]
  rw [h1, h2, h3]

/-- A 40-digit accumulator value, exhibiting exact precision. -/
def bigLA : Int := 10000000000000000000000000000000000000007

/-- A 39-digit accumulator value, exhibiting exact precision. -/
def bigDA : Int := 123456789012345678901234567890123456789

/-- An AccumulatorsSync payload with very large accumulator amounts. -/
def bigAccPayload : Payload :=
  [("token", .vStr "wstETH"), ("lending_accumulator", .vInt bigLA),
   ("debt_accumulator", .vInt bigDA)]

/-- Witness for C6 at a payload whose amounts need about 130 bits. -/
theorem C6_roundtrip_witness :
    parse_accumulators_sync_event bigAccPayload = .ok ⟨"wstETH", bigLA, bigDA⟩ ∧
    accumulatorsSyncModelClass (.accumulatorsSync ⟨"wstETH", bigLA, bigDA⟩) =
      some (.acc ⟨"wstETH", bigLA, bigDA⟩) :=
  C6_roundtrip bigAccPayload "wstETH" bigLA bigDA rfl rfl rfl

/-- Claim C7: every known event type identifier appears exactly once in
EVENT_MAPPING; looking up a known identifier returns an entry; and every
entry's model constructor accepts its parser's output, field for field. -/
theorem C7_registry_invariant :
    (EVENT_MAPPING.map Prod.fst).Nodup ∧
    (∀ t ∈ EVENT_MAPPING.map Prod.fst,
        (lookupMapping EVENT_MAPPING (some t)).isSome = true) ∧
    (∀ kv ∈ EVENT_MAPPING, ∀ (p : Payload) (parsed : ParsedEventData),
        kv.snd.parser_func p = .ok parsed →
        (kv.snd.model_class parsed).isSome = true) := by
  refine ⟨by decide, ?_, ?_⟩
  · intro t ht
    simp only [EVENT_MAPPING, List.map_cons, List.map_nil, List.mem_cons,
      List.not_mem_nil, or_false] at ht
    rcases ht with rfl | rfl <;> rfl
  · intro kv hkv p parsed h
    simp only [EVENT_MAPPING, List.mem_cons, List.not_mem_nil, or_false] at hkv
    rcases hkv with rfl | rfl
    · simp only [accumulatorsSyncEntry] at h
      cases hp : parse_accumulators_sync_event p with
      | error e => rw [hp] at h; simp [Except.map] at h
      | ok d =>
        rw [hp] at h
        simp only [Except.map] at h
        obtain rfl := (Except.ok.injEq _ _ ▸ h : ParsedEventData.accumulatorsSync d = parsed)
        rfl
    · simp only [liquidationEntry] at h
      cases hp : parse_liquidation_event p with
      | error e => rw [hp] at h; simp [Except.map] at h
      | ok d =>
        rw [hp] at h
        simp only [Except.map] at h
        obtain rfl := (Except.ok.injEq _ _ ▸ h : ParsedEventData.liquidation d = parsed)
        rfl

/-- Witness for C7 at the AccumulatorsSync identifier and a concrete
well-formed payload. -/
theorem C7_registry_invariant_witness :
    (lookupMapping EVENT_MAPPING
        (some "zklend::market::Market::AccumulatorsSync")).isSome = true ∧
    (accumulatorsSyncEntry.model_class
        (.accumulatorsSync ⟨"ETH", 1001, 2002⟩)).isSome = true :=
  ⟨C7_registry_invariant.2.1 "zklend::market::Market::AccumulatorsSync"
      (by decide),
   C7_registry_invariant.2.2
      ("zklend::market::Market::AccumulatorsSync", accumulatorsSyncEntry)
      (List.mem_cons_self _ _) goodAccPayload
      (.accumulatorsSync ⟨"ETH", 1001, 2002⟩) (by rfl)⟩

/-- Claim C8: fetch_and_transform_events holds no state across calls — an
invocation returns the instance state unchanged, and invoking it again with
the same arguments on the returned state produces the same dispatch result
(dispatch-level determinism and idempotence). -/
theorem C8_stateless (t : ZklendTransformer) (addr : String) (mn mx : Int) :
    (t.fetch_and_transform_events addr mn mx).snd = t ∧
    ((t.fetch_and_transform_events addr mn mx).snd.fetch_and_transform_events
        addr mn mx).fst = (t.fetch_and_transform_events addr mn mx).fst :=
  ⟨rfl, rfl⟩

/-- Claim C9: an event mapping without a key_name field does not fail on
the missing key itself — `event.get` yields the null value, which has no
registry entry, so the unsupported-event error naming that null type is
raised, events before it having been dispatched and no later event being
processed. -/
theorem C9_missing_key_name (d : Payload) (pre rest : List Item)
    (cs : List DbCall)
    (hpre : okCalls EVENT_MAPPING pre = some cs)
    (hnoerr : containsError (.arr (pre ++ .ev ⟨none, d⟩ :: rest)) = false) :
    runTransform (.arr (pre ++ .ev ⟨none, d⟩ :: rest)) =
      (cs, some (.unsupportedEvent none)) := by
  have happ := processEvents_append EVENT_MAPPING pre cs
    (.ev ⟨none, d⟩ :: rest) hpre
  simp [runTransform, hnoerr, happ, processEvents, dispatch_event,
    lookupMapping]

/-- Witness for C9 at a batch with one valid event before the key-less
event and one valid event after it. -/
theorem C9_missing_key_name_witness :
    runTransform (.arr ([accEvent] ++ .ev ⟨none, goodLiqPayload⟩ :: [liqEvent])) =
      ([accCall], some (.unsupportedEvent none)) :=
  C9_missing_key_name goodLiqPayload [accEvent] [liqEvent] [accCall]
    (by rfl) (by rfl)

/-- Claim C10 counterexample: a list response containing the bare string
error is caught by the membership test of line 56, but evaluating
`response["error"]` inside the raise of line 57 indexes a list with a
string, which is a TypeError — so the call aborts with a TypeError, not
with the fetch error the claim describes. -/
theorem C10_bare_error_counterexample :
    runTransform (.arr [Item.lit "error"]) = ([], some .typeError) ∧
    TError.isFetchErr .typeError = false := ⟨rfl, rfl⟩

/-- Claim C10 as amended: for a list-shaped response the fetch-error check
tests whether the literal string error occurs as an element, so a list
whose items are all event mappings never takes the fetch-error path (the
loop runs); and a list containing the bare string error takes the
fetch-error branch, which aborts with a TypeError raised while formatting
the error message, with zero persistence calls. -/
theorem C10_membership_semantics :
    (∀ (items : List Item), items.all Item.isEv = true →
        containsError (.arr items) = false ∧
        runTransform (.arr items) = processEvents EVENT_MAPPING items) ∧
    (∀ (items : List Item), Item.lit "error" ∈ items →
        runTransform (.arr items) = ([], some .typeError)) := by
  constructor
  · intro items h
    have hc := containsError_of_all_ev items h
    exact ⟨hc, by simp [runTransform, hc]⟩
  · intro items h
    have hc : containsError (.arr items) = true := by
      simp only [containsError, List.any_eq_true]
      exact ⟨Item.lit "error", h, rfl⟩
    simp [runTransform, hc, fetchRaise]

/-- Witness for the amended C10 at an all-events list and at a list whose
second element is the bare string error. -/
theorem C10_membership_semantics_witness :
    containsError (.arr [accEvent, liqEvent]) = false ∧
    runTransform (.arr [accEvent, Item.lit "error"]) = ([], some .typeError) :=
  ⟨(C10_membership_semantics.1 [accEvent, liqEvent] (by rfl)).1,
   C10_membership_semantics.2 [accEvent, Item.lit "error"] (by decide)⟩

end ZklendSpec
